import Mathlib

set_option maxRecDepth 100000

/-!
Shallow embedding of `scripts/update-formula.py` from the CloudConfig
repository: a CI helper that renders the Homebrew formula
`Formula/cloudconfig.rb` from a version tag and two checksum strings.

The script is pure string templating plus a single file write, so the
embedding models:
  * `lstrip` — Python `str.lstrip("v")` (drops every leading `v`);
  * `version`, `base` — the derived values computed in `main`;
  * `formula` — the exact rendered template text, as a function of the
    three arguments (the fixed pieces are named string constants so the
    template's structure is visible);
  * `main` — argument-count check, rendering, the write and the
    stdout/stderr lines, returned as an explicit `Outcome`;
  * `run` — `main` executed against a `World` (environment variables,
    clock, randomness source, file system) so that determinism and
    overwrite behaviour are statable; the source never reads any of
    these, which is reflected in `main` not taking a `World` at all.
-/

namespace CloudConfig

/-- A file system path, as its list of components (POSIX style).
`pathlib.Path.parent` is `List.dropLast`. -/
abbrev Path := List String

/-- Rendering of a `pathlib.Path` as a string, as Python prints it. -/
def pathStr (p : Path) : String := String.intercalate "/" p

/-- Python `s.lstrip("v")`: remove every leading `v` character
(source line 24: `version = version_tag.lstrip("v")`). -/
def lstrip (s : String) (c : Char) : String :=
  ⟨s.data.dropWhile (fun a => a = c)⟩

/-- The derived `version` value (source line 24). -/
def version (version_tag : String) : String := lstrip version_tag 'v'

/-- The derived download base URL (source line 25). -/
def base (version_tag : String) : String :=
  "https://github.com/dickwu/CloudConfig/releases/download/" ++ version_tag

/-- The ARM artifact URL interpolated into the template (source line 40). -/
def armUrl (version_tag : String) : String :=
  base version_tag ++ "/cloudconfig-" ++ version_tag ++ "-aarch64-apple-darwin.tar.gz"

/-- The Intel artifact URL interpolated into the template (source line 45). -/
def x86Url (version_tag : String) : String :=
  base version_tag ++ "/cloudconfig-" ++ version_tag ++ "-x86_64-apple-darwin.tar.gz"

/-- Template text from the start up to the opening quote of the
`version` field value. -/
def seg1 : String :=
  "# typed: false\n# frozen_string_literal: true\n\n" ++
  "# This file is auto-updated by CI on each release. Do not edit manually.\n" ++
  "class Cloudconfig < Formula\n" ++
  "  desc \"Secure cloud configuration sync server\"\n" ++
  "  homepage \"https://github.com/dickwu/CloudConfig\"\n" ++
  "  version \""

/-- Template text between the `version` value and the ARM `url` line. -/
def seg2 : String :=
  "\"\n  license \"MIT\"\n\n  on_macos do\n    on_arm do\n      "

/-- A `url` line of the template (the trailing newline included). -/
def urlLine (u : String) : String := "url \"" ++ u ++ "\"\n"

/-- A `sha256` line of the template (the trailing newline included). -/
def shaLine (h : String) : String := "      sha256 \"" ++ h ++ "\"\n"

/-- Template text between the ARM block and the Intel `url` line. -/
def seg3 : String :=
  "    end\n\n    on_intel do\n      "

/-- The `install` block of the template (source lines 50-52). -/
def installBlock : String :=
  "  def install\n    bin.install \"cloudconfig\"\n  end\n\n"

/-- The default `.env` content written by `post_install`
(source lines 60-66; the Ruby interpolation marker around `var` is
part of the rendered text). -/
def envDefaults : String :=
  "        LISTEN_ADDR=127.0.0.1:8080\n" ++
  "        TURSO_URL=#\x7bvar\x7d/lib/cloudconfig/cloudconfig.db\n" ++
  "        TURSO_AUTH_TOKEN=\n" ++
  "        MAX_CLOCK_DRIFT_SECONDS=300\n" ++
  "        MAX_BODY_SIZE_BYTES=1048576\n"

/-- The `post_install` block of the template (source lines 54-72). -/
def postInstallBlock : String :=
  "  def post_install\n    (etc/\"cloudconfig\").mkpath\n" ++
  "    (var/\"lib/cloudconfig\").mkpath\n\n" ++
  "    env_path = etc/\"cloudconfig/.env\"\n" ++
  "    unless env_path.exist?\n" ++
  "      env_path.write <<~EOS\n" ++
  envDefaults ++
  "      EOS\n    end\n\n" ++
  "    cd etc/\"cloudconfig\" do\n" ++
  "      system opt_bin/\"cloudconfig\", \"init\"\n" ++
  "    end\n  end\n\n"

/-- The `service` block of the template (source lines 74-80). -/
def serviceBlock : String :=
  "  service do\n" ++
  "    run [opt_bin/\"cloudconfig\", \"start\"]\n" ++
  "    keep_alive true\n" ++
  "    working_dir \"#\x7betc\x7d/cloudconfig\"\n" ++
  "    log_path var/\"log/cloudconfig.log\"\n" ++
  "    error_log_path var/\"log/cloudconfig.log\"\n" ++
  "  end\n\n"

/-- The `test` block of the template (source lines 82-84). -/
def testBlock : String :=
  "  test do\n    assert_predicate bin/\"cloudconfig\", :exist?\n  end\n"

/-- Constant tail of the template: everything after the Intel `sha256`
line (closing of the platform blocks, then `install`, `post_install`,
`service` and `test`, and the final `end`). -/
def seg4 : String :=
  "    end\n  end\n\n" ++ installBlock ++ postInstallBlock ++
  serviceBlock ++ testBlock ++ "end\n"

/-- The rendered formula text (the f-string of source lines 27-86),
as a function of the three command-line arguments. -/
def formula (version_tag arm_sha x86_sha : String) : String :=
  seg1 ++ version version_tag ++ seg2 ++
  urlLine (armUrl version_tag) ++ shaLine arm_sha ++ seg3 ++
  urlLine (x86Url version_tag) ++ shaLine x86_sha ++ seg4

/-- The output path: `Path(__file__).parent.parent / "Formula" / "cloudconfig.rb"`
(source line 88), i.e. two levels up from the script file. -/
def outPath (scriptFile : Path) : Path :=
  scriptFile.dropLast.dropLast ++ ["Formula", "cloudconfig.rb"]

/-- The usage message printed to standard error on wrong arity
(source line 17). -/
def usage (prog : String) : String :=
  "Usage: " ++ prog ++ " <version-tag> <arm-sha256> <x86-sha256>"

/-- Observable result of one invocation: exit status, the lines written
to standard output and standard error, and the file writes performed
(path paired with the full content written). -/
structure Outcome where
  exitCode : Nat
  stdoutLines : List String
  stderrLines : List String
  writes : List (Path × String)
deriving DecidableEq, Repr

/-- The script's `main`: `prog` is `sys.argv[0]`, `args` the positional
arguments `sys.argv[1:]`, so the source's `len(sys.argv) != 4` check is
`args.length ≠ 3`. On exactly three arguments it renders the template,
writes it to `outPath` and prints the confirmation line; otherwise it
prints the usage message to standard error and exits with status 1. -/
def main (scriptFile : Path) (prog : String) (args : List String) : Outcome :=
  match args with
  | [version_tag, arm_sha, x86_sha] =>
    { exitCode := 0
      stdoutLines := ["Updated " ++ pathStr (outPath scriptFile) ++ " to " ++ version_tag]
      stderrLines := []
      writes := [(outPath scriptFile, formula version_tag arm_sha x86_sha)] }
  | _ =>
    { exitCode := 1
      stdoutLines := []
      stderrLines := [usage prog]
      writes := [] }

/-- Ambient state a process could in principle consult or mutate:
environment variables, a clock, a randomness source and the file
system. The source reads none of them, so `main` above takes no
`World`; `run` threads one through to give overwrite semantics to the
file writes. -/
structure World where
  envVars : List (String × String)
  clock : Nat
  randomSeed : Nat
  files : Path → Option String

/-- Overwrite semantics of a single file write: the file at `p` now
holds exactly `c`; every other file is untouched. -/
def writeFile (files : Path → Option String) (p : Path) (c : String) :
    Path → Option String :=
  fun q => if q = p then some c else files q

/-- Apply a list of file writes in order. -/
def applyWrites (files : Path → Option String) :
    List (Path × String) → (Path → Option String)
  | [] => files
  | (p, c) :: rest => applyWrites (writeFile files p c) rest

/-- One invocation of the script in world `w`: the outcome together
with the world after its file writes. -/
def run (w : World) (scriptFile : Path) (prog : String) (args : List String) :
    World × Outcome :=
  let o := main scriptFile prog args
  ({ w with files := applyWrites w.files o.writes }, o)

/-- The spec's wording for the derived version: `version_tag` with a
single leading `v` character stripped if present (only one instance of
the prefix is stripped). Written from the spec's words for comparison
with `version`, which embeds the source. -/
def specVersion (version_tag : String) : String :=
  match version_tag.data with
  | 'v' :: rest => ⟨rest⟩
  | _ => version_tag

/-- Spec-worded amendment helper: remove all leading `v` characters,
by explicit recursion on the character list. -/
def stripAllVAux : List Char → List Char
  | [] => []
  | c :: cs => if c = 'v' then stripAllVAux cs else c :: cs

/-- Remove all leading `v` characters from a string. -/
def stripAllV (s : String) : String := ⟨stripAllVAux s.data⟩

/-- `t` occurs verbatim inside `s`. -/
def containsStr (s t : String) : Prop := t.data <:+: s.data

instance (s t : String) : Decidable (containsStr s t) :=
  List.decidableInfix t.data s.data

end CloudConfig

namespace CloudConfig

theorem stripAllVAux_eq_dropWhile (l : List Char) :
    stripAllVAux l = l.dropWhile (fun a => a = 'v') := by
  induction l with
  | nil => rfl
  | cons c cs ih =>
    by_cases h : c = 'v' <;> simp [stripAllVAux, List.dropWhile_cons, h, ih]

theorem head_dropWhile_ne (l : List Char) :
    ((l.dropWhile (fun a => a = 'v')).head? ≠ some 'v') := by
  induction l with
  | nil => simp
  | cons c cs ih =>
    by_cases h : c = 'v' <;> simp [List.dropWhile_cons, h, ih]

theorem containsStr_intro {s : String} (p t q : String) (h : s = p ++ (t ++ q)) :
    containsStr s t := by
  subst h
  exact ⟨p.data, q.data, by simp⟩

/-- Claim C1, counterexample: the spec says only one instance of the
leading `v` prefix is stripped, but `lstrip` removes every leading `v`:
at `version_tag = "vv1.2.3"` the code derives `"1.2.3"`, while the
spec's single-strip wording (`specVersion`) yields `"v1.2.3"`. -/
theorem c1_single_strip_counterexample :
    version "vv1.2.3" = "1.2.3" ∧ specVersion "vv1.2.3" = "v1.2.3" ∧
    version "vv1.2.3" ≠ specVersion "vv1.2.3" := by
  refine ⟨by decide, by decide, by decide⟩

/-- Claim C1, amended: the derived version is `version_tag` with ALL
leading `v` characters stripped (`stripAllV` spells the amended wording
out recursively); a tag whose first character is not `v` passes through
unchanged; `"v1.2.3"` yields `"1.2.3"` and `"1.2.3"` yields `"1.2.3"`. -/
theorem c1_version_strips_all_leading_v :
    (∀ vt, version vt = stripAllV vt) ∧
    (∀ vt : String, vt.data.head? ≠ some 'v' → version vt = vt) ∧
    version "v1.2.3" = "1.2.3" ∧ version "1.2.3" = "1.2.3" := by
  refine ⟨?_, ?_, by decide, by decide⟩
  · intro vt
    apply congrArg String.mk
    simp [version, lstrip, stripAllV, stripAllVAux_eq_dropWhile]
  · intro vt h
    apply congrArg String.mk
    match hd : vt.data with
    | [] => simp [version, lstrip, hd]
    | c :: cs =>
      have hc : ¬ (c = 'v') := by
        intro hcv
        exact h (by rw [hd, hcv]; rfl)
      simp [version, lstrip, hd, List.dropWhile_cons, hc]

/-- Claim C1 witness: the pass-through branch evaluated at the concrete
tag `"1.2.3"` (no leading `v`). -/
theorem c1_version_strips_all_leading_v_witness :
    ("1.2.3" : String).data.head? ≠ some 'v' ∧ version "1.2.3" = "1.2.3" :=
  ⟨by decide, c1_version_strips_all_leading_v.2.1 "1.2.3" (by decide)⟩

/-- Claim C2: on any argument list whose length is not exactly 3, the
script prints the usage line to standard error, exits with status 1,
performs no file write, and leaves the world (in particular every file)
unchanged. -/
theorem c2_wrong_arity_usage_error (sf : Path) (prog : String)
    (args : List String) (h : args.length ≠ 3) :
    main sf prog args = ⟨1, [], [usage prog], []⟩ ∧
    ∀ w : World, (run w sf prog args).1 = w := by
  have hm : main sf prog args = ⟨1, [], [usage prog], []⟩ := by
    match args with
    | [] => rfl
    | [a] => rfl
    | [a, b] => rfl
    | [a, b, c] => exact absurd rfl h
    | a :: b :: c :: d :: rest => rfl
  exact ⟨hm, fun w => by simp [run, hm, applyWrites]⟩

/-- Claim C2 witness: the empty argument list. -/
theorem c2_wrong_arity_usage_error_witness :
    ([] : List String).length ≠ 3 ∧
    (main ["repo", "scripts", "update-formula.py"] "prog" [] =
      ⟨1, [], [usage "prog"], []⟩) := by
  refine ⟨by decide, ?_⟩
  exact (c2_wrong_arity_usage_error ["repo", "scripts", "update-formula.py"]
    "prog" [] (by decide)).1

/-- Claim C3: the ARM and Intel artifact URLs are exactly the fixed
GitHub release path with the raw `version_tag` (leading `v` intact)
interpolated both as path segment and in the artifact filename; both
`url` lines occur verbatim in the rendered formula; at
`version_tag = "v2.0.0"` the URLs are the expected concrete strings. -/
theorem c3_url_construction :
    (∀ vt : String,
      armUrl vt = "https://github.com/dickwu/CloudConfig/releases/download/"
        ++ vt ++ "/cloudconfig-" ++ vt ++ "-aarch64-apple-darwin.tar.gz" ∧
      x86Url vt = "https://github.com/dickwu/CloudConfig/releases/download/"
        ++ vt ++ "/cloudconfig-" ++ vt ++ "-x86_64-apple-darwin.tar.gz") ∧
    (∀ vt a x : String,
      containsStr (formula vt a x) (urlLine (armUrl vt)) ∧
      containsStr (formula vt a x) (urlLine (x86Url vt))) ∧
    armUrl "v2.0.0" =
      "https://github.com/dickwu/CloudConfig/releases/download/v2.0.0/cloudconfig-v2.0.0-aarch64-apple-darwin.tar.gz" ∧
    x86Url "v2.0.0" =
      "https://github.com/dickwu/CloudConfig/releases/download/v2.0.0/cloudconfig-v2.0.0-x86_64-apple-darwin.tar.gz" := by
  refine ⟨?_, ?_, by decide, by decide⟩
  · intro vt
    constructor <;> simp [armUrl, x86Url, base, String.append_assoc]
  · intro vt a x
    constructor
    · apply containsStr_intro (seg1 ++ version vt ++ seg2) _
        (shaLine a ++ seg3 ++ urlLine (x86Url vt) ++ shaLine x ++ seg4)
      simp [formula, String.append_assoc]
    · apply containsStr_intro
        (seg1 ++ version vt ++ seg2 ++ urlLine (armUrl vt) ++ shaLine a ++ seg3)
        _ (shaLine x ++ seg4)
      simp [formula, String.append_assoc]

/-- Claim C4: for all checksum arguments (empty or non-hex included),
the rendered text embeds each checksum verbatim as the `sha256` field
immediately inside the ARM block (after the ARM `url` line) and the
Intel block respectively; `shaLine` shows the checksum is spliced into
the line unmodified, with no validation anywhere (`formula` is total on
all strings). -/
theorem c4_checksum_passthrough :
    ∀ vt a x : String,
      containsStr (formula vt a x) (urlLine (armUrl vt) ++ shaLine a) ∧
      containsStr (formula vt a x) (urlLine (x86Url vt) ++ shaLine x) ∧
      shaLine a = "      sha256 \"" ++ a ++ "\"\n" ∧
      shaLine "" = "      sha256 \"\"\n" := by
  intro vt a x
  refine ⟨?_, ?_, rfl, by decide⟩
  · apply containsStr_intro (seg1 ++ version vt ++ seg2) _
      (seg3 ++ urlLine (x86Url vt) ++ shaLine x ++ seg4)
    simp [formula, String.append_assoc]
  · apply containsStr_intro
      (seg1 ++ version vt ++ seg2 ++ urlLine (armUrl vt) ++ shaLine a ++ seg3)
      _ seg4
    simp [formula, String.append_assoc]

/-- Claim C5: the outcome (exit code, output lines, writes, and thus
the rendered text) is the same in any two worlds — no environment
variable, clock value, random seed or prior file content influences
it — and on a 3-argument run the rendered text written is exactly
`formula` of the three arguments. -/
theorem c5_deterministic_output :
    (∀ (w₁ w₂ : World) (sf : Path) (prog : String) (args : List String),
      (run w₁ sf prog args).2 = (run w₂ sf prog args).2) ∧
    (∀ (w : World) (sf : Path) (prog vt a x : String),
      (run w sf prog [vt, a, x]).2.writes = [(outPath sf, formula vt a x)]) :=
  ⟨fun _ _ _ _ _ => rfl, fun _ _ _ _ _ _ => rfl⟩

/-- Claim C6: a successful run sets the output file's content to
exactly the rendered text, whatever the file held before (full
overwrite, no append or merge); hence a second identical run leaves
content byte-identical to the first. -/
theorem c6_idempotent_overwrite
    (w : World) (sf : Path) (prog vt a x : String) :
    ((run w sf prog [vt, a, x]).1).files (outPath sf) =
      some (formula vt a x) ∧
    ((run (run w sf prog [vt, a, x]).1 sf prog [vt, a, x]).1).files (outPath sf) =
      ((run w sf prog [vt, a, x]).1).files (outPath sf) := by
  constructor <;> simp [run, main, applyWrites, writeFile]

/-- Claim C7: on exactly three arguments the script's only effects are:
one write of the rendered formula to `Formula/cloudconfig.rb` two
levels up from the script file, one confirmation line on standard
output naming that path and the version tag, no standard-error output,
and exit status 0. -/
theorem c7_success_effects (sf : Path) (prog vt a x : String) :
    main sf prog [vt, a, x] =
      ⟨0, ["Updated " ++ pathStr (outPath sf) ++ " to " ++ vt], [],
        [(outPath sf, formula vt a x)]⟩ ∧
    outPath sf = sf.dropLast.dropLast ++ ["Formula", "cloudconfig.rb"] :=
  ⟨rfl, rfl⟩

/-- Claim C8: for every 3-argument input the rendered text contains
verbatim the `install` block (installing the single `cloudconfig`
binary into `bin`), the `service` block (running the installed binary
with `keep_alive true`, a working directory, and log and error-log
paths at fixed package-manager-relative locations) and the `test`
block asserting the installed binary exists. -/
theorem c8_install_service_test_blocks :
    ∀ vt a x : String,
      containsStr (formula vt a x) installBlock ∧
      containsStr (formula vt a x) serviceBlock ∧
      containsStr (formula vt a x) testBlock ∧
      containsStr installBlock ("bin.install \"cloudconfig\"") ∧
      containsStr serviceBlock ("keep_alive true") ∧
      containsStr serviceBlock ("working_dir \"#\x7betc\x7d/cloudconfig\"") ∧
      containsStr serviceBlock ("log_path var/\"log/cloudconfig.log\"") ∧
      containsStr serviceBlock ("error_log_path var/\"log/cloudconfig.log\"") ∧
      containsStr testBlock ("assert_predicate bin/\"cloudconfig\", :exist?") := by
  intro vt a x
  refine ⟨?_, ?_, ?_, by decide, by decide, by decide, by decide, by decide,
    by decide⟩
  · apply containsStr_intro
      (seg1 ++ version vt ++ seg2 ++ urlLine (armUrl vt) ++ shaLine a ++ seg3 ++
        urlLine (x86Url vt) ++ shaLine x ++ "    end\n  end\n\n") _
      (postInstallBlock ++ serviceBlock ++ testBlock ++ "end\n")
    simp [formula, seg4, String.append_assoc]
  · apply containsStr_intro
      (seg1 ++ version vt ++ seg2 ++ urlLine (armUrl vt) ++ shaLine a ++ seg3 ++
        urlLine (x86Url vt) ++ shaLine x ++ "    end\n  end\n\n" ++ installBlock ++
        postInstallBlock) _
      (testBlock ++ "end\n")
    simp [formula, seg4, String.append_assoc]
  · apply containsStr_intro
      (seg1 ++ version vt ++ seg2 ++ urlLine (armUrl vt) ++ shaLine a ++ seg3 ++
        urlLine (x86Url vt) ++ shaLine x ++ "    end\n  end\n\n" ++ installBlock ++
        postInstallBlock ++ serviceBlock) _
      ("end\n")
    simp [formula, seg4, String.append_assoc]

/-- Claim C9: the derivation removes ALL leading `v` characters, not
just one: `"vv1.2.3"` yields `"1.2.3"`, `"v"` yields the empty string,
and for every tag the derived version never begins with `v`. -/
theorem c9_all_leading_v_removed :
    version "vv1.2.3" = "1.2.3" ∧ version "v" = "" ∧
    ∀ vt : String, (version vt).data.head? ≠ some 'v' :=
  ⟨by decide, by decide,
    fun vt => by simpa [version, lstrip] using head_dropWhile_ne vt.data⟩

/-- Claim C9 witness: the no-leading-`v` conclusion evaluated at the
concrete tag `"vv1.2.3"`. -/
theorem c9_all_leading_v_removed_witness :
    (version "vv1.2.3").data.head? ≠ some 'v' :=
  c9_all_leading_v_removed.2.2 "vv1.2.3"

/-- Claim C10: for every input the rendered formula contains the
`post_install` block verbatim, whose bootstrap writes the default
environment file only when none exists (the `unless env_path.exist?`
guard), with exactly the keys and default values `LISTEN_ADDR`,
`TURSO_URL`, `TURSO_AUTH_TOKEN` (empty), `MAX_CLOCK_DRIFT_SECONDS` and
`MAX_BODY_SIZE_BYTES` spelled out in `envDefaults`. -/
theorem c10_env_bootstrap_defaults :
    ∀ vt a x : String,
      containsStr (formula vt a x) postInstallBlock ∧
      containsStr postInstallBlock
        ("unless env_path.exist?\n      env_path.write <<~EOS\n" ++
          envDefaults ++ "      EOS\n    end") ∧
      envDefaults =
        "        LISTEN_ADDR=127.0.0.1:8080\n" ++
        "        TURSO_URL=#\x7bvar\x7d/lib/cloudconfig/cloudconfig.db\n" ++
        "        TURSO_AUTH_TOKEN=\n" ++
        "        MAX_CLOCK_DRIFT_SECONDS=300\n" ++
        "        MAX_BODY_SIZE_BYTES=1048576\n" := by
  intro vt a x
  refine ⟨?_, ?_, rfl⟩
  · apply containsStr_intro
      (seg1 ++ version vt ++ seg2 ++ urlLine (armUrl vt) ++ shaLine a ++ seg3 ++
        urlLine (x86Url vt) ++ shaLine x ++ "    end\n  end\n\n" ++ installBlock) _
      (serviceBlock ++ testBlock ++ "end\n")
    simp [formula, seg4, String.append_assoc]
  · apply containsStr_intro
      ("  def post_install\n    (etc/\"cloudconfig\").mkpath\n" ++
        "    (var/\"lib/cloudconfig\").mkpath\n\n" ++
        "    env_path = etc/\"cloudconfig/.env\"\n    ") _
      ("\n\n    cd etc/\"cloudconfig\" do\n" ++
        "      system opt_bin/\"cloudconfig\", \"init\"\n" ++
        "    end\n  end\n\n")
    decide

end CloudConfig
